import Mathlib

/-!
Verification of the conversation turn manager of `app.py`, a chat front end
that relays typed text or recorded speech to a chat-completion service and a
transcription service. The definitions below are a shallow embedding of the
session state and of the operations of the script: the reply pipeline
`stream_reply`, the text and audio submission handlers, the model-switch
confirmation step, the system-message guard and the model-list validation.
External services are parameters: a chat service maps a model id and a
message list to a reply or an error, a transcriber maps audio bytes to a
transcript or an error.
-/

set_option autoImplicit false

namespace App

/-- Role of a chat message, as the `role` field in `app.py`. -/
inductive Role
  | system
  | user
  | assistant
deriving DecidableEq, Repr

/-- A chat message: `{"role": ..., "content": ...}`. -/
structure Message where
  role : Role
  content : String
deriving DecidableEq, Repr

/-- The Streamlit session state of `app.py`: `messages`, `last_audio_id`,
`is_replying` and `selected_model`. Audio fingerprints are modelled as `Nat`
(Python `hash` returns an integer); `none` is the initial `None`. -/
structure SessionState where
  messages : List Message
  lastAudioId : Option Nat
  isReplying : Bool
  selectedModel : String
deriving DecidableEq, Repr

/-- One update delivered to the reply placeholder of the display surface:
either an in-progress render (content still carrying the trailing typing
marker) or the final render. -/
inductive RenderUpdate
  | inProgress (content : String)
  | finalUpdate (content : String)
deriving DecidableEq, Repr

/-- Observable effects of one submission: placeholder updates, surfaced
error messages, requests issued to the chat service, and the number of
transcription requests issued. -/
structure TurnOutput where
  updates : List RenderUpdate
  errors : List String
  chatCalls : List (String × List Message)
  transcriptionCalls : Nat
deriving DecidableEq, Repr

/-- The empty output: nothing rendered, no service touched. -/
def TurnOutput.empty : TurnOutput := ⟨[], [], [], 0⟩

/-- The chat-completion service: model id and outbound message list to a
reply text, or an error (a raised exception in the source). -/
def ChatService : Type := String → List Message → Except String String

/-- The transcription service: audio bytes to a transcript, or an error. -/
def Transcriber : Type := List Nat → Except String String

/-- Python `str.strip()`: remove leading and trailing whitespace, modelled
structurally on the character list of the string. -/
def pyStrip (s : String) : String :=
  ⟨((s.data.dropWhile Char.isWhitespace).reverse.dropWhile
      Char.isWhitespace).reverse⟩

/-- Python `str.lower()`, modelled on the character list. -/
def pyLower (s : String) : String := ⟨s.data.map Char.toLower⟩

/-- Whether the second list starts with the first list. -/
def startsWithChars : List Char → List Char → Bool
  | _, [] => true
  | [], _ :: _ => false
  | a :: as, b :: bs => a = b && startsWithChars as bs

/-- Python `sub in s` on character lists: some tail of the second list
starts with `sub`. -/
def containsChars (sub : List Char) : List Char → Bool
  | [] => sub.isEmpty
  | a :: as => startsWithChars (a :: as) sub || containsChars sub as

/-- The trailing in-progress marker appended to every partial render in the
character-by-character loop of `stream_reply`. -/
def typingMarker : String := "▌"

/-- The error text built in the `except` branch of `stream_reply`. -/
def chatErrorMessage (model e : String) : String :=
  "❌ Error with model **" ++ model ++ "**.\n\nDetails: " ++ e ++
    "\n\n⚡ Make sure the model supports chat text input. Non-chat or audio-only models cannot be used here."

/-- The sequence of placeholder renders produced for a reply: one in-progress
update per character (the accumulated text so far plus the typing marker),
then the final render of the whole reply with no marker. -/
def streamUpdates (reply : String) : List RenderUpdate :=
  ((List.range reply.length).map fun i =>
    RenderUpdate.inProgress ((reply.take (i + 1)) ++ typingMarker)) ++
  [RenderUpdate.finalUpdate reply]

/-- The function `stream_reply` of `app.py`: set `is_replying`, append an empty assistant
placeholder, call the chat service with the log minus the placeholder; on
success fill the placeholder with the reply and render it incrementally then
finally; on failure surface a decorated error and pop the placeholder; in
both branches clear `is_replying` at the end. -/
def stream_reply (st : SessionState) (svc : ChatService) :
    SessionState × TurnOutput :=
  let busy := { st with isReplying := true }
  let withPlaceholder :=
    { busy with messages := busy.messages ++ [Message.mk Role.assistant ""] }
  let outbound := withPlaceholder.messages.dropLast
  match svc st.selectedModel outbound with
  | Except.ok replyText =>
      let filled :=
        { withPlaceholder with
          messages := withPlaceholder.messages.dropLast ++
            [Message.mk Role.assistant replyText] }
      ({ filled with isReplying := false },
       ⟨streamUpdates replyText, [], [(st.selectedModel, outbound)], 0⟩)
  | Except.error e =>
      ({ withPlaceholder with
          messages := withPlaceholder.messages.dropLast,
          isReplying := false },
       ⟨[], [chatErrorMessage st.selectedModel e],
        [(st.selectedModel, outbound)], 0⟩)

/-- The text-input handler: when not replying, a submitted string is checked
for Python truthiness (`if user_text:`, so `None` and the empty string are
skipped but a whitespace-only string is not), its trimmed form is appended as
a user message, and `stream_reply` runs. -/
def submitText (st : SessionState) (raw : Option String) (svc : ChatService) :
    SessionState × TurnOutput :=
  if st.isReplying then (st, TurnOutput.empty)
  else
    match raw with
    | none => (st, TurnOutput.empty)
    | some userText =>
      if userText = "" then (st, TurnOutput.empty)
      else
        let appended :=
          { st with
            messages := st.messages ++ [Message.mk Role.user (pyStrip userText)] }
        stream_reply appended svc

/-- Deterministic stand-in for Python `hash(audio["bytes"])`: the claims
depend only on the fingerprint being a fixed function of the byte content
within a session, which the source leaves to the runtime hash. -/
def audioFingerprint (bytes : List Nat) : Nat :=
  bytes.foldl (fun h b => (h * 1000003 + b + 1) % 2305843009213693951) 0

/-- The audio-input handler: when not replying and a non-empty byte blob is
delivered, hash it; if the hash equals `last_audio_id` do nothing, else
record the hash and call the transcriber. The transcription call sits in no
`try` block, so its failure is returned as `Except.error` (the exception
escapes the script). A blank trimmed transcript ends the turn with no
message; otherwise the transcript is appended as a user message and
`stream_reply` runs. -/
def submitAudio (st : SessionState) (audio : Option (List Nat))
    (transcribe : Transcriber) (svc : ChatService) :
    Except String (SessionState × TurnOutput) :=
  if st.isReplying then Except.ok (st, TurnOutput.empty)
  else
    match audio with
    | none => Except.ok (st, TurnOutput.empty)
    | some bytes =>
      if bytes = [] then Except.ok (st, TurnOutput.empty)
      else
        let audio_id := audioFingerprint bytes
        if st.lastAudioId = some audio_id then Except.ok (st, TurnOutput.empty)
        else
          let accepted := { st with lastAudioId := some audio_id }
          match transcribe bytes with
          | Except.error e => Except.error e
          | Except.ok rawText =>
            let text := pyStrip rawText
            if text = "" then Except.ok (accepted, ⟨[], [], [], 1⟩)
            else
              let appended :=
                { accepted with
                  messages := accepted.messages ++ [Message.mk Role.user text] }
              let res := stream_reply appended svc
              Except.ok (res.1, { res.2 with transcriptionCalls := 1 })

/-- Content of the system message inserted by the script. -/
def systemContent (model : String) : String :=
  "You are ChatGPT. Behave like ChatGPT and mention your model " ++ model ++
    " when asked."

/-- The guard that inserts a system message at index 0 when none exists. -/
def ensureSystem (st : SessionState) : SessionState :=
  if st.messages.any (fun m => m.role = Role.system) then st
  else
    { st with
      messages := Message.mk Role.system (systemContent st.selectedModel) :: st.messages }

/-- The model-switch confirmation step: selecting a model different from the
active one does nothing until the confirmation checkbox is ticked; on
confirmation the active model becomes the candidate and `messages` is reset
to `[]` (note: `last_audio_id` is not touched by this branch). -/
def modelSwitch (st : SessionState) (newModel : String) (confirmed : Bool) :
    SessionState :=
  if newModel ≠ st.selectedModel then
    if confirmed then
      { st with selectedModel := newModel, messages := [] }
    else st
  else st

/-- The fixed fallback model list of the script. -/
def defaultModels : List String :=
  ["gpt-4o-mini", "gpt-4o", "gpt-4.1", "gpt-4.1-mini", "gpt-3.5-turbo"]

/-- Tokens whose presence excludes a model id from the chat-capable list. -/
def excludedTokens : List String :=
  ["instruct", "embedding", "codex", "davinci", "babbage", "curie", "ada",
   "audio"]

/-- The name-pattern filter of the script: the lowercased id contains "gpt"
and none of the excluded tokens. -/
def isChatCapable (id : String) : Bool :=
  containsChars "gpt".data (pyLower id).data &&
    excludedTokens.all (fun x => !(containsChars x.data (pyLower id).data))

/-- The available-model computation: the fetched list filtered to
chat-capable ids, with the fallback list when the fetch fails (`none`) or
the filtered list is empty (the script raises and falls back). -/
def computeAvailableModels (fetched : Option (List String)) : List String :=
  match fetched with
  | none => defaultModels
  | some ids =>
    let filtered := ids.filter isChatCapable
    if filtered.isEmpty then defaultModels else filtered

/-- Lines 93 and 94 of the script: when the selected model is not in the
available list, silently replace it with the first element of the list. -/
def ensureValidModel (st : SessionState) (models : List String) :
    SessionState :=
  if st.selectedModel ∈ models then st
  else { st with selectedModel := models.headD st.selectedModel }

/-- Whether a render update is an in-progress (marker-carrying) one. -/
def RenderUpdate.isInProgress : RenderUpdate → Bool
  | RenderUpdate.inProgress _ => true
  | RenderUpdate.finalUpdate _ => false

/-- The inductive invariant behind the system-message property: no message
after index 0 has the system role. -/
def tailNoSystem (msgs : List Message) : Prop :=
  ∀ m ∈ msgs.drop 1, m.role ≠ Role.system

/-- One operation of a script pass on the session state: model-switch
handling, model-list validation, the system-message guard, or a text or
audio submission. -/
inductive Step : SessionState → SessionState → Prop
  | switchStep (st : SessionState) (m : String) (c : Bool) :
      Step st (modelSwitch st m c)
  | validStep (st : SessionState) (models : List String) :
      Step st (ensureValidModel st models)
  | ensureStep (st : SessionState) : Step st (ensureSystem st)
  | textStep (st : SessionState) (raw : Option String) (svc : ChatService) :
      Step st (submitText st raw svc).1
  | audioStep (st st' : SessionState) (audio : Option (List Nat))
      (transcribe : Transcriber) (svc : ChatService) (out : TurnOutput)
      (h : submitAudio st audio transcribe svc = Except.ok (st', out)) :
      Step st st'

/-- Reachable session states: the initial state (empty log, no fingerprint,
idle) followed by any sequence of script operations. -/
inductive Reachable : SessionState → Prop
  | init (model : String) : Reachable ⟨[], none, false, model⟩
  | step {st st' : SessionState} : Reachable st → Step st st' → Reachable st'

/-! ## Helper lemmas -/

theorem dropLast_snoc {α : Type} (l : List α) (a : α) :
    (l ++ [a]).dropLast = l := by
  simp

/-- Full characterisation of `stream_reply`: the service is called with the
log minus the placeholder, that is, exactly the log at entry; on success the
filled assistant message is appended, on failure the log is restored; the
busy flag ends false either way. -/
theorem stream_reply_cases (st : SessionState) (svc : ChatService) :
    (∃ r, svc st.selectedModel st.messages = Except.ok r ∧
      stream_reply st svc =
        ({ st with
            messages := st.messages ++ [Message.mk Role.assistant r],
            isReplying := false },
         ⟨streamUpdates r, [], [(st.selectedModel, st.messages)], 0⟩))
    ∨ (∃ e, svc st.selectedModel st.messages = Except.error e ∧
      stream_reply st svc =
        ({ st with isReplying := false },
         ⟨[], [chatErrorMessage st.selectedModel e],
          [(st.selectedModel, st.messages)], 0⟩)) := by
  cases h : svc st.selectedModel st.messages with
  | ok r =>
    refine Or.inl ⟨r, rfl, ?_⟩
    simp only [stream_reply, dropLast_snoc, h]
  | error e =>
    refine Or.inr ⟨e, rfl, ?_⟩
    simp only [stream_reply, dropLast_snoc, h]

theorem stream_reply_isReplying (st : SessionState) (svc : ChatService) :
    (stream_reply st svc).1.isReplying = false := by
  rcases stream_reply_cases st svc with ⟨r, -, h⟩ | ⟨e, -, h⟩ <;> rw [h]

theorem stream_reply_lastAudioId (st : SessionState) (svc : ChatService) :
    (stream_reply st svc).1.lastAudioId = st.lastAudioId := by
  rcases stream_reply_cases st svc with ⟨r, -, h⟩ | ⟨e, -, h⟩ <;> rw [h]

theorem stream_reply_selectedModel (st : SessionState) (svc : ChatService) :
    (stream_reply st svc).1.selectedModel = st.selectedModel := by
  rcases stream_reply_cases st svc with ⟨r, -, h⟩ | ⟨e, -, h⟩ <;> rw [h]

theorem stream_reply_chatCalls (st : SessionState) (svc : ChatService) :
    (stream_reply st svc).2.chatCalls = [(st.selectedModel, st.messages)] := by
  rcases stream_reply_cases st svc with ⟨r, -, h⟩ | ⟨e, -, h⟩ <;> rw [h]

theorem stream_reply_messages_extend (st : SessionState) (svc : ChatService) :
    ∃ tail, (stream_reply st svc).1.messages = st.messages ++ tail
      ∧ ∀ m ∈ tail, m.role = Role.assistant := by
  rcases stream_reply_cases st svc with ⟨r, -, h⟩ | ⟨e, -, h⟩
  · exact ⟨[Message.mk Role.assistant r], by rw [h], by simp⟩
  · exact ⟨[], by rw [h]; simp, by simp⟩

theorem submitText_busy (st : SessionState) (raw : Option String)
    (svc : ChatService) (h : st.isReplying = true) :
    submitText st raw svc = (st, TurnOutput.empty) := by
  simp [submitText, h]

theorem submitAudio_busy (st : SessionState) (audio : Option (List Nat))
    (transcribe : Transcriber) (svc : ChatService) (h : st.isReplying = true) :
    submitAudio st audio transcribe svc = Except.ok (st, TurnOutput.empty) := by
  simp [submitAudio, h]

theorem submitText_idle_isReplying (st : SessionState) (raw : Option String)
    (svc : ChatService) (h : st.isReplying = false) :
    (submitText st raw svc).1.isReplying = false := by
  unfold submitText
  rw [h]
  cases raw with
  | none => simpa using h
  | some t =>
    by_cases ht : t = ""
    · simp [ht, h]
    · simp only [ht, if_neg, if_false, Bool.false_eq_true]
      exact stream_reply_isReplying _ svc

theorem submitAudio_ok_isReplying (st st' : SessionState)
    (audio : Option (List Nat)) (transcribe : Transcriber) (svc : ChatService)
    (out : TurnOutput) (h : st.isReplying = false)
    (hok : submitAudio st audio transcribe svc = Except.ok (st', out)) :
    st'.isReplying = false := by
  unfold submitAudio at hok
  rw [h] at hok
  simp only [Bool.false_eq_true, if_false] at hok
  cases audio with
  | none =>
    simp only [Except.ok.injEq, Prod.mk.injEq] at hok
    rw [← hok.1]; exact h
  | some bytes =>
    by_cases hb : bytes = []
    · simp only [hb, if_pos, if_true, Except.ok.injEq, Prod.mk.injEq] at hok
      rw [← hok.1]; exact h
    · simp only [hb, if_neg, if_false] at hok
      by_cases hfp : st.lastAudioId = some (audioFingerprint bytes)
      · simp only [hfp, if_pos, if_true, Except.ok.injEq, Prod.mk.injEq] at hok
        rw [← hok.1]; exact h
      · simp only [hfp, if_neg, if_false] at hok
        cases htr : transcribe bytes with
        | error e => rw [htr] at hok; exact absurd hok (by simp)
        | ok rawText =>
          rw [htr] at hok
          by_cases hstrip : pyStrip rawText = ""
          · simp only [hstrip, if_pos, if_true, Except.ok.injEq,
              Prod.mk.injEq] at hok
            rw [← hok.1]
          · simp only [hstrip, if_neg, if_false, Except.ok.injEq,
              Prod.mk.injEq] at hok
            rw [← hok.1]
            exact stream_reply_isReplying _ svc

theorem submitAudio_accepted_eq (st : SessionState) (bytes : List Nat)
    (transcribe : Transcriber) (svc : ChatService) (t : String)
    (hbusy : st.isReplying = false) (hb : bytes ≠ [])
    (hfp : st.lastAudioId ≠ some (audioFingerprint bytes))
    (ht : transcribe bytes = Except.ok t) (hne : pyStrip t ≠ "") :
    submitAudio st (some bytes) transcribe svc =
      Except.ok
        ((stream_reply
            { st with
              lastAudioId := some (audioFingerprint bytes),
              messages := st.messages ++ [Message.mk Role.user (pyStrip t)] }
            svc).1,
         { (stream_reply
            { st with
              lastAudioId := some (audioFingerprint bytes),
              messages := st.messages ++ [Message.mk Role.user (pyStrip t)] }
            svc).2 with transcriptionCalls := 1 }) := by
  unfold submitAudio
  rw [hbusy]
  simp only [Bool.false_eq_true, if_false, hb, hfp, ht, hne, if_neg]

theorem submitAudio_duplicate_noop (s : SessionState) (bytes : List Nat)
    (transcribe : Transcriber) (svc : ChatService)
    (hbusy : s.isReplying = false) (hb : bytes ≠ [])
    (hfp : s.lastAudioId = some (audioFingerprint bytes)) :
    submitAudio s (some bytes) transcribe svc
      = Except.ok (s, TurnOutput.empty) := by
  unfold submitAudio
  rw [hbusy]
  simp [hb, hfp]

/-- C3: a blob whose fingerprint equals the stored `last_audio_id` is a
no-op, so two identical successive submissions of audio that transcribes to
non-blank text append exactly one user message and issue exactly one
transcription call: the first submission appends it, the second returns the
state unchanged with empty output. -/
theorem audio_submission_idempotent
    (st : SessionState) (bytes : List Nat) (t : String)
    (transcribe : Transcriber) (svc : ChatService)
    (hbusy : st.isReplying = false) (hb : bytes ≠ [])
    (hfp : st.lastAudioId ≠ some (audioFingerprint bytes))
    (ht : transcribe bytes = Except.ok t) (hne : pyStrip t ≠ "") :
    ∃ st1 out1,
      submitAudio st (some bytes) transcribe svc = Except.ok (st1, out1)
      ∧ st1.messages.countP (fun m => decide (m.role = Role.user))
          = st.messages.countP (fun m => decide (m.role = Role.user)) + 1
      ∧ out1.transcriptionCalls = 1
      ∧ st1.lastAudioId = some (audioFingerprint bytes)
      ∧ submitAudio st1 (some bytes) transcribe svc
          = Except.ok (st1, TurnOutput.empty)
      ∧ ∀ s : SessionState, s.isReplying = false →
          s.lastAudioId = some (audioFingerprint bytes) →
          submitAudio s (some bytes) transcribe svc
            = Except.ok (s, TurnOutput.empty) := by
  have heq := submitAudio_accepted_eq st bytes transcribe svc t hbusy hb hfp
    ht hne
  obtain ⟨tail, htail, hroles⟩ := stream_reply_messages_extend
    { st with
      lastAudioId := some (audioFingerprint bytes),
      messages := st.messages ++ [Message.mk Role.user (pyStrip t)] } svc
  refine ⟨_, _, heq, ?_, rfl, ?_, ?_, ?_⟩
  · rw [htail]
    simp only [List.countP_append]
    have hz : tail.countP (fun m => decide (m.role = Role.user)) = 0 :=
      List.countP_eq_zero.mpr fun m hm => by simp [hroles m hm]
    simp [hz]
  · rw [stream_reply_lastAudioId]
  · exact submitAudio_duplicate_noop _ bytes transcribe svc
      (stream_reply_isReplying _ svc) hb (by rw [stream_reply_lastAudioId])
  · intro s hs hfps
    exact submitAudio_duplicate_noop s bytes transcribe svc hs hb hfps

/-- Witness for C3: a concrete duplicate audio submission from the initial
state. -/
theorem audio_submission_idempotent_witness :
    ([1, 2, 3] : List Nat) ≠ []
    ∧ pyStrip "Hi" ≠ ""
    ∧ (none : Option Nat) ≠ some (audioFingerprint [1, 2, 3])
    ∧ ∃ st1 out1,
        submitAudio ⟨[], none, false, "gpt-4o-mini"⟩ (some [1, 2, 3])
            (fun _ => Except.ok "Hi") (fun _ _ => Except.ok "Hello!")
          = Except.ok (st1, out1)
        ∧ st1.messages.countP (fun m => decide (m.role = Role.user))
            = ([] : List Message).countP
                (fun m => decide (m.role = Role.user)) + 1
        ∧ out1.transcriptionCalls = 1
        ∧ st1.lastAudioId = some (audioFingerprint [1, 2, 3])
        ∧ submitAudio st1 (some [1, 2, 3]) (fun _ => Except.ok "Hi")
            (fun _ _ => Except.ok "Hello!") = Except.ok (st1, TurnOutput.empty)
        ∧ ∀ s : SessionState, s.isReplying = false →
            s.lastAudioId = some (audioFingerprint [1, 2, 3]) →
            submitAudio s (some [1, 2, 3]) (fun _ => Except.ok "Hi")
                (fun _ _ => Except.ok "Hello!")
              = Except.ok (s, TurnOutput.empty) :=
  ⟨by decide, by decide, by simp,
   audio_submission_idempotent ⟨[], none, false, "gpt-4o-mini"⟩ [1, 2, 3] "Hi"
     (fun _ => Except.ok "Hi") (fun _ _ => Except.ok "Hello!")
     rfl (by decide) (by simp) rfl (by decide)⟩

/-- C2: when the chat-completion call fails, the log keeps exactly the
just-appended user message and gains no assistant message (the empty
placeholder is removed), the decorated error text is surfaced, and a
subsequent successful text turn appends its user and assistant messages
right after the user message of the failed turn. -/
theorem completion_failure_keeps_user_message
    (hist : List Message) (u : String) (st : SessionState)
    (svc svc2 : ChatService) (e reply u2 : String)
    (hmsgs : st.messages = hist ++ [Message.mk Role.user u])
    (hfail : svc st.selectedModel st.messages = Except.error e) :
    (stream_reply st svc).1.messages = hist ++ [Message.mk Role.user u]
    ∧ (stream_reply st svc).1.messages.countP
        (fun m => decide (m.role = Role.assistant))
      = st.messages.countP (fun m => decide (m.role = Role.assistant))
    ∧ (stream_reply st svc).2.errors = [chatErrorMessage st.selectedModel e]
    ∧ (stream_reply st svc).1.isReplying = false
    ∧ (u2 ≠ "" →
        svc2 st.selectedModel
            (hist ++ [Message.mk Role.user u,
              Message.mk Role.user (pyStrip u2)]) = Except.ok reply →
        (submitText (stream_reply st svc).1 (some u2) svc2).1.messages =
          hist ++ [Message.mk Role.user u, Message.mk Role.user (pyStrip u2),
            Message.mk Role.assistant reply]) := by
  rcases stream_reply_cases st svc with ⟨r, hr, -⟩ | ⟨e', he', heq⟩
  · rw [hfail] at hr; exact absurd hr (by simp)
  · rw [hfail] at he'
    injection he' with he''
    subst he''
    refine ⟨by rw [heq, hmsgs], by rw [heq], by rw [heq], by rw [heq], ?_⟩
    intro hu2 hsucc
    rw [heq]
    unfold submitText
    simp only [hu2, if_neg, if_false, Bool.false_eq_true]
    have happ :
        ({ st with isReplying := false } : SessionState).messages ++
            [Message.mk Role.user (pyStrip u2)]
          = hist ++ [Message.mk Role.user u,
              Message.mk Role.user (pyStrip u2)] := by
      simp [hmsgs]
    rcases stream_reply_cases
        { ({ st with isReplying := false } : SessionState) with
          messages := ({ st with isReplying := false } : SessionState).messages
            ++ [Message.mk Role.user (pyStrip u2)] } svc2 with
      ⟨r2, hr2, heq2⟩ | ⟨e2, he2, -⟩
    · rw [show ({ ({ st with isReplying := false } : SessionState) with
          messages := ({ st with isReplying := false } :
            SessionState).messages ++ [Message.mk Role.user (pyStrip u2)] } :
          SessionState).selectedModel = st.selectedModel from rfl,
        show ({ ({ st with isReplying := false } : SessionState) with
          messages := ({ st with isReplying := false } :
            SessionState).messages ++ [Message.mk Role.user (pyStrip u2)] } :
          SessionState).messages = ({ st with isReplying := false } :
            SessionState).messages ++ [Message.mk Role.user (pyStrip u2)]
          from rfl, happ, hsucc] at hr2
      injection hr2 with hr2'
      subst hr2'
      rw [heq2]
      simp [hmsgs]
    · rw [show ({ ({ st with isReplying := false } : SessionState) with
          messages := ({ st with isReplying := false } :
            SessionState).messages ++ [Message.mk Role.user (pyStrip u2)] } :
          SessionState).selectedModel = st.selectedModel from rfl,
        show ({ ({ st with isReplying := false } : SessionState) with
          messages := ({ st with isReplying := false } :
            SessionState).messages ++ [Message.mk Role.user (pyStrip u2)] } :
          SessionState).messages = ({ st with isReplying := false } :
            SessionState).messages ++ [Message.mk Role.user (pyStrip u2)]
          from rfl, happ, hsucc] at he2
      exact absurd he2 (by simp)

/-- Witness for C2: a concrete failed turn followed by a successful one. -/
theorem completion_failure_keeps_user_message_witness :
    (stream_reply ⟨[Message.mk Role.system "s", Message.mk Role.user "Hello"],
        none, false, "gpt-4o-mini"⟩
        (fun _ _ => Except.error "boom")).1.messages
      = [Message.mk Role.system "s"] ++ [Message.mk Role.user "Hello"]
    ∧ (submitText
        (stream_reply ⟨[Message.mk Role.system "s",
            Message.mk Role.user "Hello"], none, false, "gpt-4o-mini"⟩
          (fun _ _ => Except.error "boom")).1
        (some "Again") (fun _ _ => Except.ok "Hi there")).1.messages
      = [Message.mk Role.system "s"] ++
          [Message.mk Role.user "Hello", Message.mk Role.user (pyStrip "Again"),
            Message.mk Role.assistant "Hi there"] :=
  ⟨(completion_failure_keeps_user_message [Message.mk Role.system "s"] "Hello"
      ⟨[Message.mk Role.system "s", Message.mk Role.user "Hello"], none, false,
        "gpt-4o-mini"⟩
      (fun _ _ => Except.error "boom") (fun _ _ => Except.ok "Hi there")
      "boom" "Hi there" "Again" rfl rfl).1,
   (completion_failure_keeps_user_message [Message.mk Role.system "s"] "Hello"
      ⟨[Message.mk Role.system "s", Message.mk Role.user "Hello"], none, false,
        "gpt-4o-mini"⟩
      (fun _ _ => Except.error "boom") (fun _ _ => Except.ok "Hi there")
      "boom" "Hi there" "Again" rfl rfl).2.2.2.2 (by decide) rfl⟩

/-- C1: for every turn (text or audio), the busy flag is false immediately
before the turn is admitted — a submission arriving while the flag is true
changes nothing and produces nothing — and it is set back to false on every
exit path of the turn pipeline `stream_reply`, whether the chat-completion
call succeeds or fails. -/
theorem busy_flag_invariant (st : SessionState) (svc : ChatService)
    (raw : Option String) (audio : Option (List Nat))
    (transcribe : Transcriber) :
    (stream_reply st svc).1.isReplying = false
    ∧ (st.isReplying = true → submitText st raw svc = (st, TurnOutput.empty))
    ∧ (st.isReplying = true →
        submitAudio st audio transcribe svc = Except.ok (st, TurnOutput.empty))
    ∧ (st.isReplying = false → (submitText st raw svc).1.isReplying = false)
    ∧ (st.isReplying = false → ∀ st' out,
        submitAudio st audio transcribe svc = Except.ok (st', out) →
        st'.isReplying = false) :=
  ⟨stream_reply_isReplying st svc,
   fun h => submitText_busy st raw svc h,
   fun h => submitAudio_busy st audio transcribe svc h,
   fun h => submitText_idle_isReplying st raw svc h,
   fun h st' out hok =>
     submitAudio_ok_isReplying st st' audio transcribe svc out h hok⟩

/-- Witness for C1 at a concrete idle state and concrete services. -/
theorem busy_flag_invariant_witness :
    (stream_reply ⟨[Message.mk Role.system "s"], none, false, "gpt-4o-mini"⟩
        (fun _ _ => Except.ok "Hi")).1.isReplying = false
    ∧ (submitText ⟨[Message.mk Role.system "s"], none, false, "gpt-4o-mini"⟩
        (some "Hello") (fun _ _ => Except.ok "Hi")).1.isReplying = false :=
  ⟨(busy_flag_invariant ⟨[Message.mk Role.system "s"], none, false,
      "gpt-4o-mini"⟩ (fun _ _ => Except.ok "Hi") (some "Hello") none
      (fun _ => Except.ok "t")).1,
   (busy_flag_invariant ⟨[Message.mk Role.system "s"], none, false,
      "gpt-4o-mini"⟩ (fun _ _ => Except.ok "Hi") (some "Hello") none
      (fun _ => Except.ok "t")).2.2.2.1 rfl⟩

/-- C4 counterexample: the raw input " " is empty after trimming, yet its
submission is not a no-op — the log grows from one message to three (an
empty-content user message plus the assistant reply) and one chat call is
made, because the source checks `if user_text:` on the raw string before
stripping it. -/
theorem whitespace_submission_not_noop :
    pyStrip " " = ""
    ∧ (submitText ⟨[Message.mk Role.system "s"], none, false, "gpt-4o-mini"⟩
        (some " ") (fun _ _ => Except.ok "Hi")).1.messages
      = [Message.mk Role.system "s", Message.mk Role.user "",
          Message.mk Role.assistant "Hi"]
    ∧ (submitText ⟨[Message.mk Role.system "s"], none, false, "gpt-4o-mini"⟩
        (some " ") (fun _ _ => Except.ok "Hi")).2.chatCalls.length = 1 :=
  ⟨by decide, by decide, by decide⟩

/-- C4 amended: text submission is a no-op exactly when the raw input is
absent or the empty string; any other raw input — a whitespace-only string
included — is admitted as a turn, appending its stripped form as a user
message and issuing one chat call. -/
theorem text_submission_noop_only_when_raw_empty (st : SessionState)
    (svc : ChatService) (raw : Option String) (hbusy : st.isReplying = false) :
    ((raw = none ∨ raw = some "") →
        submitText st raw svc = (st, TurnOutput.empty))
    ∧ ∀ s, raw = some s → s ≠ "" →
        (submitText st raw svc).2.chatCalls
            = [(st.selectedModel,
                st.messages ++ [Message.mk Role.user (pyStrip s)])]
        ∧ ∃ tail, (submitText st raw svc).1.messages
            = st.messages ++ [Message.mk Role.user (pyStrip s)] ++ tail := by
  constructor
  · rintro (h | h) <;> subst h <;> simp [submitText, hbusy]
  · rintro s rfl hs
    unfold submitText
    rw [hbusy]
    simp only [Bool.false_eq_true, if_false, hs, if_neg]
    constructor
    · rw [stream_reply_chatCalls]
    · obtain ⟨tail, ht, -⟩ := stream_reply_messages_extend _ svc
      exact ⟨tail, by rw [ht]⟩

/-- Witness for C4 at a concrete state and input. -/
theorem text_submission_noop_only_when_raw_empty_witness :
    (⟨[Message.mk Role.system "s"], none, false, "gpt-4o-mini"⟩ :
        SessionState).isReplying = false
    ∧ ("Hello" : String) ≠ ""
    ∧ ((submitText ⟨[Message.mk Role.system "s"], none, false, "gpt-4o-mini"⟩
          (some "Hello") (fun _ _ => Except.ok "Hi")).2.chatCalls
        = [("gpt-4o-mini", [Message.mk Role.system "s"] ++
            [Message.mk Role.user (pyStrip "Hello")])]
      ∧ ∃ tail,
          (submitText ⟨[Message.mk Role.system "s"], none, false,
              "gpt-4o-mini"⟩ (some "Hello")
            (fun _ _ => Except.ok "Hi")).1.messages
          = [Message.mk Role.system "s"] ++
              [Message.mk Role.user (pyStrip "Hello")] ++ tail) :=
  ⟨rfl, by decide,
   (text_submission_noop_only_when_raw_empty
      ⟨[Message.mk Role.system "s"], none, false, "gpt-4o-mini"⟩
      (fun _ _ => Except.ok "Hi") (some "Hello") rfl).2
     "Hello" rfl (by decide)⟩

/-- C5: at a concrete idle state, a failing transcription service makes
`submitAudio` return the raw exception (`Except.error`), not a state with a
surfaced error message — the source wraps the chat call in `try`/`except`
but not the transcription call, so the failure escapes the turn boundary
uncaught (no message is appended, since no turn state is even produced). -/
theorem transcription_failure_escapes :
    submitAudio ⟨[Message.mk Role.system "s"], none, false, "gpt-4o-mini"⟩
        (some [1, 2, 3]) (fun _ => Except.error "service down")
        (fun _ _ => Except.ok "Hi")
      = Except.error "service down" := by
  rfl

/-- C6 counterexample: confirming a switch from "gpt-4o" to "gpt-4o-mini"
with `last_audio_id = some 5` clears the message log and changes the active
model, but leaves the audio fingerprint at `some 5` instead of resetting it
to `none` — only `st.session_state.messages = []` is executed. -/
theorem model_switch_confirm_keeps_fingerprint :
    (modelSwitch ⟨[Message.mk Role.user "hello"], some 5, false, "gpt-4o"⟩
        "gpt-4o-mini" true).selectedModel = "gpt-4o-mini"
    ∧ (modelSwitch ⟨[Message.mk Role.user "hello"], some 5, false, "gpt-4o"⟩
        "gpt-4o-mini" true).messages = []
    ∧ (modelSwitch ⟨[Message.mk Role.user "hello"], some 5, false, "gpt-4o"⟩
        "gpt-4o-mini" true).lastAudioId = some 5
    ∧ (modelSwitch ⟨[Message.mk Role.user "hello"], some 5, false, "gpt-4o"⟩
        "gpt-4o-mini" true).lastAudioId ≠ none :=
  ⟨by decide, by decide, by decide, by decide⟩

/-- C6 amended: confirming a model change sets the active model to the
candidate and resets the message log to empty, while `last_audio_id` is left
unchanged (not reset); declining, or re-selecting the original model, leaves
the whole state unchanged. -/
theorem model_switch_spec (st : SessionState) (m : String) (c : Bool) :
    (m ≠ st.selectedModel → c = true →
      modelSwitch st m c = { st with selectedModel := m, messages := [] })
    ∧ (c = false → modelSwitch st m c = st)
    ∧ (m = st.selectedModel → modelSwitch st m c = st)
    ∧ (modelSwitch st m c).lastAudioId = st.lastAudioId := by
  refine ⟨fun hne hc => ?_, fun hc => ?_, fun hm => ?_, ?_⟩
  · simp [modelSwitch, hne, hc]
  · subst hc
    unfold modelSwitch
    split <;> simp
  · simp [modelSwitch, hm]
  · unfold modelSwitch
    split
    · split <;> rfl
    · rfl

/-- Witness for C6 amended at concrete states. -/
theorem model_switch_spec_witness :
    ("gpt-4o-mini" : String) ≠ "gpt-4o"
    ∧ modelSwitch ⟨[Message.mk Role.user "hello"], some 5, false, "gpt-4o"⟩
        "gpt-4o-mini" true
      = { (⟨[Message.mk Role.user "hello"], some 5, false, "gpt-4o"⟩ :
            SessionState) with
          selectedModel := "gpt-4o-mini", messages := [] }
    ∧ modelSwitch ⟨[Message.mk Role.user "hello"], some 5, false, "gpt-4o"⟩
        "gpt-4o-mini" false
      = ⟨[Message.mk Role.user "hello"], some 5, false, "gpt-4o"⟩ :=
  ⟨by decide,
   (model_switch_spec ⟨[Message.mk Role.user "hello"], some 5, false,
      "gpt-4o"⟩ "gpt-4o-mini" true).1 (by decide) rfl,
   (model_switch_spec ⟨[Message.mk Role.user "hello"], some 5, false,
      "gpt-4o"⟩ "gpt-4o-mini" false).2.1 rfl⟩

theorem tailNoSystem_append (l tail : List Message)
    (h1 : tailNoSystem l) (h2 : ∀ m ∈ tail, m.role ≠ Role.system) :
    tailNoSystem (l ++ tail) := by
  cases l with
  | nil =>
    intro m hm
    exact h2 m (List.drop_subset 1 tail hm)
  | cons a l' =>
    intro m hm
    have hm' : m ∈ l' ++ tail := by simpa using hm
    rcases List.mem_append.mp hm' with h | h
    · exact h1 m (by simpa using h)
    · exact h2 m h

theorem modelSwitch_messages (st : SessionState) (m : String) (c : Bool) :
    (modelSwitch st m c).messages = []
      ∨ (modelSwitch st m c).messages = st.messages := by
  unfold modelSwitch
  split
  · split
    · exact Or.inl rfl
    · exact Or.inr rfl
  · exact Or.inr rfl

theorem ensureValidModel_messages (st : SessionState) (models : List String) :
    (ensureValidModel st models).messages = st.messages := by
  unfold ensureValidModel
  split <;> rfl

theorem ensureSystem_tailNoSystem (st : SessionState)
    (h : tailNoSystem st.messages) :
    tailNoSystem (ensureSystem st).messages := by
  unfold ensureSystem
  split
  · exact h
  · rename_i hno
    intro m hm hrole
    have hm' : m ∈ st.messages := by simpa using hm
    exact hno (List.any_eq_true.mpr ⟨m, hm', by simp [hrole]⟩)

theorem submitText_messages_extend (st : SessionState) (raw : Option String)
    (svc : ChatService) :
    ∃ tail, (submitText st raw svc).1.messages = st.messages ++ tail
      ∧ ∀ m ∈ tail, m.role ≠ Role.system := by
  unfold submitText
  by_cases hbusy : st.isReplying = true
  · rw [if_pos hbusy]
    exact ⟨[], by simp, by simp⟩
  · rw [if_neg hbusy]
    cases raw with
    | none => exact ⟨[], by simp, by simp⟩
    | some t =>
      dsimp only
      by_cases ht : t = ""
      · rw [if_pos ht]
        exact ⟨[], by simp, by simp⟩
      · rw [if_neg ht]
        obtain ⟨tail, htail, hroles⟩ := stream_reply_messages_extend
          { st with messages := st.messages ++
              [Message.mk Role.user (pyStrip t)] } svc
        refine ⟨[Message.mk Role.user (pyStrip t)] ++ tail, ?_, ?_⟩
        · rw [htail]; simp
        · intro m hm
          rcases List.mem_append.mp hm with h | h
          · simp only [List.mem_singleton] at h
            subst h; simp
          · rw [hroles m h]; simp

theorem submitAudio_messages_extend (st st' : SessionState)
    (audio : Option (List Nat)) (transcribe : Transcriber) (svc : ChatService)
    (out : TurnOutput)
    (hok : submitAudio st audio transcribe svc = Except.ok (st', out)) :
    ∃ tail, st'.messages = st.messages ++ tail
      ∧ ∀ m ∈ tail, m.role ≠ Role.system := by
  unfold submitAudio at hok
  by_cases hbusy : st.isReplying = true
  · rw [if_pos hbusy] at hok
    simp only [Except.ok.injEq, Prod.mk.injEq] at hok
    exact ⟨[], by rw [← hok.1]; simp, by simp⟩
  · rw [if_neg hbusy] at hok
    cases audio with
    | none =>
      simp only [Except.ok.injEq, Prod.mk.injEq] at hok
      exact ⟨[], by rw [← hok.1]; simp, by simp⟩
    | some bytes =>
      dsimp only at hok
      by_cases hbe : bytes = []
      · rw [if_pos hbe] at hok
        simp only [Except.ok.injEq, Prod.mk.injEq] at hok
        exact ⟨[], by rw [← hok.1]; simp, by simp⟩
      · rw [if_neg hbe] at hok
        by_cases hfp : st.lastAudioId = some (audioFingerprint bytes)
        · rw [if_pos hfp] at hok
          simp only [Except.ok.injEq, Prod.mk.injEq] at hok
          exact ⟨[], by rw [← hok.1]; simp, by simp⟩
        · rw [if_neg hfp] at hok
          cases htr : transcribe bytes with
          | error e =>
            rw [htr] at hok
            exact absurd hok (by simp)
          | ok rawText =>
            rw [htr] at hok
            dsimp only at hok
            by_cases hstrip : pyStrip rawText = ""
            · rw [if_pos hstrip] at hok
              simp only [Except.ok.injEq, Prod.mk.injEq] at hok
              exact ⟨[], by rw [← hok.1]; simp, by simp⟩
            · rw [if_neg hstrip] at hok
              simp only [Except.ok.injEq, Prod.mk.injEq] at hok
              obtain ⟨tail, htail, hroles⟩ := stream_reply_messages_extend
                { st with
                  lastAudioId := some (audioFingerprint bytes),
                  messages := st.messages ++
                    [Message.mk Role.user (pyStrip rawText)] } svc
              refine ⟨[Message.mk Role.user (pyStrip rawText)] ++ tail,
                ?_, ?_⟩
              · rw [← hok.1, htail]; simp
              · intro m hm
                rcases List.mem_append.mp hm with h | h
                · simp only [List.mem_singleton] at h
                  subst h; simp
                · rw [hroles m h]; simp

theorem reachable_tailNoSystem (st : SessionState) (h : Reachable st) :
    tailNoSystem st.messages := by
  induction h with
  | init model => intro m hm; simp at hm
  | @step s s' hr hs ih =>
    cases hs with
    | switchStep m c =>
      rcases modelSwitch_messages s m c with h' | h'
      · rw [h']; intro m hm; simp at hm
      · rw [h']; exact ih
    | validStep models =>
      rw [ensureValidModel_messages]; exact ih
    | ensureStep =>
      exact ensureSystem_tailNoSystem s ih
    | textStep raw svc =>
      obtain ⟨tail, htail, hroles⟩ := submitText_messages_extend s raw svc
      rw [htail]
      exact tailNoSystem_append _ _ ih hroles
    | audioStep s2 audio transcribe svc out hok =>
      obtain ⟨tail, htail, hroles⟩ :=
        submitAudio_messages_extend s s' audio transcribe svc out hok
      rw [htail]
      exact tailNoSystem_append _ _ ih hroles

theorem tailNoSystem_claim (msgs : List Message) (h : tailNoSystem msgs) :
    msgs.countP (fun m => decide (m.role = Role.system)) ≤ 1
    ∧ ∀ i, (hi : i < msgs.length) →
        (msgs.get ⟨i, hi⟩).role = Role.system → i = 0 := by
  cases msgs with
  | nil => exact ⟨by simp, fun i hi => by simp at hi⟩
  | cons a rest =>
    have hrest : ∀ m ∈ rest, m.role ≠ Role.system := fun m hm =>
      h m (by simpa using hm)
    constructor
    · have hz : rest.countP (fun m => decide (m.role = Role.system)) = 0 :=
        List.countP_eq_zero.mpr fun m hm => by simp [hrest m hm]
      simp only [List.countP_cons, hz, Nat.zero_add]
      split <;> simp
    · intro i hi hrole
      cases i with
      | zero => rfl
      | succ j =>
        exfalso
        have hj : j < rest.length := by simpa using hi
        exact hrest (rest.get ⟨j, hj⟩) (rest.get_mem _ _) hrole

/-- C7: in every reachable session state there is at most one system
message, and any system message sits at index 0; this is preserved by every
operation: model switch, model validation, the system-message guard, text
turns and audio turns, successful or failed. -/
theorem system_message_unique_and_first (st : SessionState)
    (h : Reachable st) :
    st.messages.countP (fun m => decide (m.role = Role.system)) ≤ 1
    ∧ ∀ i, (hi : i < st.messages.length) →
        (st.messages.get ⟨i, hi⟩).role = Role.system → i = 0 :=
  tailNoSystem_claim st.messages (reachable_tailNoSystem st h)

/-- Witness for C7: the state right after the system-message guard runs on a
fresh session. -/
theorem system_message_unique_and_first_witness :
    (ensureSystem ⟨[], none, false, "gpt-4o-mini"⟩).messages.countP
        (fun m => decide (m.role = Role.system)) ≤ 1
    ∧ ∀ i, (hi : i < (ensureSystem ⟨[], none, false,
          "gpt-4o-mini"⟩).messages.length) →
        ((ensureSystem ⟨[], none, false, "gpt-4o-mini"⟩).messages.get
            ⟨i, hi⟩).role = Role.system → i = 0 :=
  system_message_unique_and_first _
    (Reachable.step (Reachable.init "gpt-4o-mini")
      (Step.ensureStep ⟨[], none, false, "gpt-4o-mini"⟩))

/-- C8: the message list sent to the chat service is exactly the session
log in insertion order at the moment of admission — the system message, the
prior history and the just-appended user message — and does not include the
empty assistant placeholder appended inside `stream_reply`. -/
theorem outbound_list_is_admission_log (st : SessionState) (svc : ChatService)
    (raw : String) (hbusy : st.isReplying = false) (hraw : raw ≠ "") :
    (∀ s : SessionState,
        (stream_reply s svc).2.chatCalls = [(s.selectedModel, s.messages)])
    ∧ (submitText st (some raw) svc).2.chatCalls
        = [(st.selectedModel,
            st.messages ++ [Message.mk Role.user (pyStrip raw)])] := by
  constructor
  · exact fun s => stream_reply_chatCalls s svc
  · unfold submitText
    rw [if_neg (show ¬st.isReplying = true by simp [hbusy])]
    dsimp only
    rw [if_neg hraw]
    exact stream_reply_chatCalls _ svc

/-- Witness for C8 at a concrete state and input. -/
theorem outbound_list_is_admission_log_witness :
    (stream_reply ⟨[Message.mk Role.system "s"], none, false, "gpt-4o-mini"⟩
        (fun _ _ => Except.ok "Hi")).2.chatCalls
      = [("gpt-4o-mini", [Message.mk Role.system "s"])]
    ∧ (submitText ⟨[Message.mk Role.system "s"], none, false, "gpt-4o-mini"⟩
        (some "Hello") (fun _ _ => Except.ok "Hi")).2.chatCalls
      = [("gpt-4o-mini", [Message.mk Role.system "s"] ++
          [Message.mk Role.user (pyStrip "Hello")])] :=
  ⟨(outbound_list_is_admission_log
      ⟨[Message.mk Role.system "s"], none, false, "gpt-4o-mini"⟩
      (fun _ _ => Except.ok "Hi") "Hello" rfl (by decide)).1
      ⟨[Message.mk Role.system "s"], none, false, "gpt-4o-mini"⟩,
   (outbound_list_is_admission_log
      ⟨[Message.mk Role.system "s"], none, false, "gpt-4o-mini"⟩
      (fun _ _ => Except.ok "Hi") "Hello" rfl (by decide)).2⟩

theorem countP_streamUpdates (r : String) :
    (streamUpdates r).countP RenderUpdate.isInProgress = r.length := by
  unfold streamUpdates
  rw [List.countP_append, List.countP_map]
  have hcomp : (RenderUpdate.isInProgress ∘ fun i =>
      RenderUpdate.inProgress ((r.take (i + 1)) ++ typingMarker))
        = fun _ => true := by
    funext i; rfl
  rw [hcomp]
  simp [RenderUpdate.isInProgress]

theorem filter_streamUpdates_final (r : String) :
    (streamUpdates r).filter (fun u => !(RenderUpdate.isInProgress u))
      = [RenderUpdate.finalUpdate r] := by
  unfold streamUpdates
  rw [List.filter_append]
  have h1 : (((List.range r.length).map fun i =>
      RenderUpdate.inProgress ((r.take (i + 1)) ++ typingMarker)).filter
        (fun u => !(RenderUpdate.isInProgress u))) = [] := by
    rw [List.filter_eq_nil_iff]
    intro a ha
    obtain ⟨i, -, rfl⟩ := List.mem_map.mp ha
    simp [RenderUpdate.isInProgress]
  rw [h1]
  simp [RenderUpdate.isInProgress]

theorem one_le_length_of_ne_empty (r : String) (h : r ≠ "") :
    1 ≤ r.length := by
  by_contra hlt
  apply h
  have h0 : r.data.length = 0 := Nat.lt_one_iff.mp (Nat.lt_of_not_le hlt)
  cases r with
  | mk data =>
    cases List.length_eq_zero.mp h0
    rfl

/-- C9 counterexample: a successful call whose reply is the empty string
produces zero in-progress updates — the display receives only the single
final update, refuting "one or more partial content updates" for this
successful call (the character loop runs zero times). -/
theorem empty_reply_no_in_progress_update :
    ((stream_reply ⟨[Message.mk Role.system "s", Message.mk Role.user "hi"],
        none, false, "gpt-4o-mini"⟩ (fun _ _ => Except.ok "")).2.updates
      = [RenderUpdate.finalUpdate ""])
    ∧ ¬(1 ≤ ((stream_reply ⟨[Message.mk Role.system "s",
          Message.mk Role.user "hi"], none, false, "gpt-4o-mini"⟩
          (fun _ _ => Except.ok "")).2.updates.countP
            RenderUpdate.isInProgress)) :=
  ⟨by decide, by decide⟩

/-- C9 amended: for every successful chat-completion call, the display
surface receives one in-progress update per character of the reply (each the
accumulated prefix plus the typing marker) — so one or more when the reply
is non-empty and zero when the reply is empty — followed by exactly one
final update whose content is the full returned reply text with no trailing
in-progress marker. -/
theorem streaming_updates_shape (st : SessionState) (svc : ChatService)
    (r : String) (h : svc st.selectedModel st.messages = Except.ok r) :
    (stream_reply st svc).2.updates = streamUpdates r
    ∧ (stream_reply st svc).2.updates.countP RenderUpdate.isInProgress
        = r.length
    ∧ (stream_reply st svc).2.updates.filter
        (fun u => !(RenderUpdate.isInProgress u))
      = [RenderUpdate.finalUpdate r]
    ∧ (r ≠ "" →
        1 ≤ (stream_reply st svc).2.updates.countP
          RenderUpdate.isInProgress) := by
  rcases stream_reply_cases st svc with ⟨r', hr', heq⟩ | ⟨e, he, -⟩
  · rw [h] at hr'
    injection hr' with hr''
    subst hr''
    rw [heq]
    exact ⟨rfl, countP_streamUpdates r, filter_streamUpdates_final r,
      fun hne => by
        rw [countP_streamUpdates r]
        exact one_le_length_of_ne_empty r hne⟩
  · rw [h] at he
    exact absurd he (by simp)

/-- Witness for C9 amended at a concrete successful call. -/
theorem streaming_updates_shape_witness :
    (stream_reply ⟨[Message.mk Role.system "s"], none, false, "gpt-4o-mini"⟩
        (fun _ _ => Except.ok "Hi")).2.updates = streamUpdates "Hi"
    ∧ (stream_reply ⟨[Message.mk Role.system "s"], none, false, "gpt-4o-mini"⟩
        (fun _ _ => Except.ok "Hi")).2.updates.countP
          RenderUpdate.isInProgress = ("Hi" : String).length
    ∧ 1 ≤ (stream_reply ⟨[Message.mk Role.system "s"], none, false,
          "gpt-4o-mini"⟩
        (fun _ _ => Except.ok "Hi")).2.updates.countP
          RenderUpdate.isInProgress :=
  ⟨(streaming_updates_shape ⟨[Message.mk Role.system "s"], none, false,
      "gpt-4o-mini"⟩ (fun _ _ => Except.ok "Hi") "Hi" rfl).1,
   (streaming_updates_shape ⟨[Message.mk Role.system "s"], none, false,
      "gpt-4o-mini"⟩ (fun _ _ => Except.ok "Hi") "Hi" rfl).2.1,
   (streaming_updates_shape ⟨[Message.mk Role.system "s"], none, false,
      "gpt-4o-mini"⟩ (fun _ _ => Except.ok "Hi") "Hi" rfl).2.2.2
     (by decide)⟩

theorem computeAvailableModels_ne_nil (fetched : Option (List String)) :
    computeAvailableModels fetched ≠ [] := by
  cases fetched with
  | none => simp [computeAvailableModels, defaultModels]
  | some ids =>
    unfold computeAvailableModels
    dsimp only
    split
    · simp [defaultModels]
    · rename_i hne
      intro hc
      apply hne
      rw [hc]
      rfl

/-- C10: after the available-model list is computed (filtered fetch result,
or the fallback list — never empty), the validated active model is an
element of the list; when the previous selection is already in the list
nothing changes at all, and when it is absent it is silently replaced by the
first element of the list, leaving the message log and the audio fingerprint
untouched (no confirmation step is involved: `ensureValidModel` takes no
confirm input). -/
theorem active_model_in_available_list (st : SessionState)
    (fetched : Option (List String)) (models : List String)
    (hm : models = computeAvailableModels fetched) :
    (ensureValidModel st models).selectedModel ∈ models
    ∧ (ensureValidModel st models).messages = st.messages
    ∧ (ensureValidModel st models).lastAudioId = st.lastAudioId
    ∧ (st.selectedModel ∈ models → ensureValidModel st models = st)
    ∧ ∃ first rest, models = first :: rest
        ∧ (st.selectedModel ∉ models →
            (ensureValidModel st models).selectedModel = first) := by
  have hne : models ≠ [] := by
    rw [hm]; exact computeAvailableModels_ne_nil fetched
  obtain ⟨first, rest, hcons⟩ := List.exists_cons_of_ne_nil hne
  by_cases hmem : st.selectedModel ∈ models
  · have heq : ensureValidModel st models = st := by
      unfold ensureValidModel; rw [if_pos hmem]
    exact ⟨by rw [heq]; exact hmem, by rw [heq], by rw [heq], fun _ => heq,
      first, rest, hcons, fun hnot => absurd hmem hnot⟩
  · have heq : ensureValidModel st models
        = { st with selectedModel := models.headD st.selectedModel } := by
      unfold ensureValidModel; rw [if_neg hmem]
    have hhead : models.headD st.selectedModel = first := by
      rw [hcons]; rfl
    refine ⟨?_, by rw [heq], by rw [heq], fun hc => absurd hc hmem,
      first, rest, hcons, fun _ => by rw [heq]; exact hhead⟩
    rw [heq]
    show models.headD st.selectedModel ∈ models
    rw [hhead, hcons]
    exact List.mem_cons_self first rest

/-- Witness for C10: a stale selection is replaced by the head of the
fallback list. -/
theorem active_model_in_available_list_witness :
    (ensureValidModel ⟨[], none, false, "unset"⟩ defaultModels).selectedModel
        ∈ defaultModels
    ∧ (ensureValidModel ⟨[], none, false, "unset"⟩
        defaultModels).selectedModel = "gpt-4o-mini" :=
  ⟨(active_model_in_available_list ⟨[], none, false, "unset"⟩ none
      defaultModels rfl).1, by decide⟩

end App
